import Mathlib

/-!
# Verification of the faff backend message core

A shallow embedding of the faff-backend source (TypeScript, Express +
socket.io + Sequelize) and proofs of the specified properties about it.

Modelling conventions:
* Sequelize rows become Lean structures; the database and the upload
  directory become explicit fields of a `ServerState` record that every
  handler threads through.
* `findByPk` / `findOne` become `List.find?`; `create` appends a row and
  bumps the per-table id counter; `createdAt` timestamps are modelled by the
  (monotone) id counter, which preserves insertion order.
* JavaScript truthiness that the handlers rely on (`if (replyToId)`,
  `content || message.content`, `attachments || []`) is modelled by explicit
  helper functions.
* External effects (socket emissions) are returned as an explicit event
  list; the OpenAI collaborator call is passed in as an `Except` outcome.
-/

namespace Faff

/-- An uploaded file as delivered by the multer middleware
(`Express.Multer.File`: generated `filename`, client `originalname`, the
on-disk `path`, `mimetype` and `size`). -/
structure UploadedFile where
  filename : String
  originalName : String
  path : String
  mimetype : String
  size : Nat
deriving Repr, DecidableEq

/-- `Attachment` interface from models/Message.ts. -/
structure Attachment where
  id : String
  filename : String
  originalName : String
  path : String
  url : String
  mimetype : String
  size : Nat
  createdAt : Nat
deriving Repr, DecidableEq

/-- A `Message` row (models/Message.ts): task reference, sender reference,
text content, optional reply self-reference and the embedded attachment
list (JSONB column). -/
structure Message where
  id : Nat
  taskId : Nat
  senderId : Nat
  content : String
  replyToId : Option Nat
  attachments : List Attachment
  createdAt : Nat
deriving Repr, DecidableEq

/-- A `User` row (models/User.ts); the credential hash is irrelevant to the
claims and omitted. -/
structure DbUser where
  id : Nat
  name : String
  email : String
  role : String
deriving Repr, DecidableEq

/-- A `Task` row; of its columns only the id (existence checks) and the
status (passed to summary generation) matter to the verified claims. -/
structure Task where
  id : Nat
  status : String
deriving Repr, DecidableEq

/-- A `QAReview` row (models/QAReview.ts). -/
structure QAReview where
  id : Nat
  messageId : Nat
  reviewerId : Nat
  status : String
  feedback : Option String
deriving Repr, DecidableEq

/-- A `Summary` row (the Summary model): at most one is kept per task by the
controllers' create-or-update logic. -/
structure Summary where
  id : Nat
  taskId : Nat
  createdById : Nat
  content : String
  entities : List String
deriving Repr, DecidableEq

/-- The server's persistent state: the relational store (one list per
table, with the autoincrement counters) and the upload directory `disk`
holding the paths of the stored attachment files. -/
structure ServerState where
  users : List DbUser
  tasks : List Task
  messages : List Message
  nextMessageId : Nat
  qaReviews : List QAReview
  nextReviewId : Nat
  summaries : List Summary
  nextSummaryId : Nat
  disk : List String
deriving Repr, DecidableEq

/-- `Task.findByPk(taskId)`. -/
def findTask (st : ServerState) (id : Nat) : Option Task :=
  st.tasks.find? (fun t => t.id == id)

/-- `Message.findByPk(id)`. -/
def findMessage (st : ServerState) (id : Nat) : Option Message :=
  st.messages.find? (fun m => m.id == id)

/-- `User.findByPk(id)`. -/
def findUser (st : ServerState) (id : Nat) : Option DbUser :=
  st.users.find? (fun u => u.id == id)

/-- JavaScript truthiness of an optional numeric id (`if (replyToId)`):
absent and `0` are falsy.  Message ids are positive (autoincrement), so on
real ids this is plain presence. -/
def optIdTruthy : Option Nat → Bool
  | none => false
  | some n => n != 0

/-- `replyToId || null`. -/
def jsOrNull (o : Option Nat) : Option Nat :=
  if optIdTruthy o then o else none

/-- `x || dflt` on an optional string: absent and `""` are falsy. -/
def jsOrString : Option String → String → String
  | none, dflt => dflt
  | some s, dflt => if s == "" then dflt else s

/-- The sender shape included on hydrated messages
(`attributes: ['id', 'name', 'email']`). -/
structure PublicUser where
  id : Nat
  name : String
  email : String
deriving Repr, DecidableEq

/-- Project a user row to the included attribute set. -/
def toPublic (u : DbUser) : PublicUser :=
  { id := u.id, name := u.name, email := u.email }

/-- The reply-target part of a hydrated message: the referenced message with
its own sender resolved. -/
structure HydratedReply where
  msg : Message
  sender : Option PublicUser
deriving Repr, DecidableEq

/-- A message fetched with `include: [sender, replyTo-with-sender]` — the
shape both intake paths return/broadcast. -/
structure HydratedMessage where
  msg : Message
  sender : Option PublicUser
  replyTo : Option HydratedReply
deriving Repr, DecidableEq

/-- Resolve the `sender` and `replyTo` includes for a message row. -/
def hydrateMessage (st : ServerState) (m : Message) : HydratedMessage :=
  { msg := m
    sender := (findUser st m.senderId).map toPublic
    replyTo :=
      match m.replyToId with
      | none => none
      | some rid =>
        (findMessage st rid).map (fun rm =>
          { msg := rm, sender := (findUser st rm.senderId).map toPublic }) }

/-- `Message.findByPk(id, include sender and replyTo)` as called identically
after a create/update on both intake paths. -/
def findByPkHydrated (st : ServerState) (id : Nat) : Option HydratedMessage :=
  (findMessage st id).map (hydrateMessage st)

/-- `API_BASE_URL` default from the upload config. -/
def apiBaseUrl : String := "http://localhost:3000"

/-- `getFileUrl(filename, 'message')` from the upload config. -/
def getFileUrl (filename : String) : String :=
  apiBaseUrl ++ "/uploads/messages/" ++ filename

/-- `processUploadedFiles` (fileService.ts): map each uploaded file to an
`Attachment` record.  The source draws the attachment id from `uuidv4()` and
the timestamp from `new Date()`; they are modelled as an id derived from the
stored filename (itself generated uniquely per upload by the upload config)
and time `0` — no verified claim depends on either value. -/
def processUploadedFiles (files : List UploadedFile) : List Attachment :=
  files.map (fun f =>
    { id := "uuid-" ++ f.filename
      filename := f.filename
      originalName := f.originalName
      path := f.path
      url := getFileUrl f.filename
      mimetype := f.mimetype
      size := f.size
      createdAt := 0 })

/-- `deleteAttachmentFiles` (fileService.ts): best-effort `fs.unlink` of
each attachment's stored path (a failing unlink is logged and skipped, the
others still run). -/
def deleteAttachmentFiles (disk : List String) (atts : List Attachment) : List String :=
  disk.filter (fun p => !(atts.any (fun a => a.path == p)))

/-- `Message.create({taskId, senderId, content, replyToId, attachments})`:
append a fresh row; `createdAt` is the (monotone) fresh id. -/
def messageCreate (st : ServerState) (taskId senderId : Nat) (content : String)
    (replyToId : Option Nat) (atts : List Attachment) : Message × ServerState :=
  let m : Message :=
    { id := st.nextMessageId
      taskId := taskId
      senderId := senderId
      content := content
      replyToId := replyToId
      attachments := atts
      createdAt := st.nextMessageId }
  (m, { st with messages := st.messages ++ [m], nextMessageId := st.nextMessageId + 1 })

/-- An HTTP response from a controller: a success with status, message text
and optional hydrated payload, or an error with status and message text. -/
inductive HttpResult where
  | ok (status : Nat) (note : String) (data : Option HydratedMessage)
  | err (status : Nat) (note : String)
deriving Repr, DecidableEq

/-- A socket.io emission: either to a task room (`io.to(room).emit`) or back
to the originating socket (`socket.emit('error', ...)`). -/
inductive Emit where
  | toRoom (room : String) (event : String) (payload : Option HydratedMessage)
  | toSender (event : String) (errMsg : String)
deriving Repr, DecidableEq

/-- Shared tail of the HTTP `createMessage` controller after validation:
process the files, create the row, re-fetch it hydrated, respond 201.  The
controller has no reference to the socket server, so it emits nothing. -/
def createMessageCore (st : ServerState) (senderId taskId : Nat) (content : String)
    (replyToId : Option Nat) (files : List UploadedFile) :
    HttpResult × ServerState × List Emit :=
  let attachments := if files.length > 0 then processUploadedFiles files else []
  let created := messageCreate st taskId senderId content (jsOrNull replyToId) attachments
  (HttpResult.ok 201 "Message sent successfully" (findByPkHydrated created.2 created.1.id),
   created.2, [])

/-- HTTP controller `createMessage` (messageController.ts).  The multipart
middleware has already stored `files` on `st.disk` when the controller runs;
each validation failure cleans those files up before responding. -/
def createMessage (st : ServerState) (senderId taskId : Nat) (content : String)
    (replyToId : Option Nat) (files : List UploadedFile) :
    HttpResult × ServerState × List Emit :=
  match findTask st taskId with
  | none =>
    let st' := if files.length > 0 then
        { st with disk := deleteAttachmentFiles st.disk (processUploadedFiles files) }
      else st
    (HttpResult.err 404 "Task not found", st', [])
  | some _ =>
    if optIdTruthy replyToId then
      match findMessage st (replyToId.getD 0) with
      | none =>
        let st' := if files.length > 0 then
            { st with disk := deleteAttachmentFiles st.disk (processUploadedFiles files) }
          else st
        (HttpResult.err 404 "Reply message not found", st', [])
      | some replyMessage =>
        if replyMessage.taskId != taskId then
          let st' := if files.length > 0 then
              { st with disk := deleteAttachmentFiles st.disk (processUploadedFiles files) }
            else st
          (HttpResult.err 400 "Reply message does not belong to the same task", st', [])
        else
          createMessageCore st senderId taskId content replyToId files
    else
      createMessageCore st senderId taskId content replyToId files

/-- Shared tail of the socket `send_message` handler after validation:
create the row, re-fetch it hydrated and broadcast `new_message` to the
task's room. -/
def sendMessageCore (st : ServerState) (senderId taskId : Nat) (content : String)
    (replyToId : Option Nat) (attachments : Option (List Attachment)) :
    ServerState × List Emit :=
  let created := messageCreate st taskId senderId content (jsOrNull replyToId)
    (attachments.getD [])
  (created.2,
   [Emit.toRoom ("task_" ++ toString taskId) "new_message"
     (findByPkHydrated created.2 created.1.id)])

/-- Socket `send_message` handler (socket.ts) for an authenticated socket:
validation failures are emitted as `error` events to the sender only; a
successful create is broadcast to the task room. -/
def sendMessage (st : ServerState) (senderId taskId : Nat) (content : String)
    (replyToId : Option Nat) (attachments : Option (List Attachment)) :
    ServerState × List Emit :=
  match findTask st taskId with
  | none => (st, [Emit.toSender "error" "Task not found"])
  | some _ =>
    if optIdTruthy replyToId then
      match findMessage st (replyToId.getD 0) with
      | none => (st, [Emit.toSender "error" "Reply message not found"])
      | some replyMessage =>
        if replyMessage.taskId != taskId then
          (st, [Emit.toSender "error" "Reply message does not belong to the same task"])
        else
          sendMessageCore st senderId taskId content replyToId attachments
    else
      sendMessageCore st senderId taskId content replyToId attachments

/-- A JavaScript `Set` of strings, as socket.io v3+ uses for `socket.rooms`
(insertion-ordered, duplicate-free). -/
structure JsSet where
  elems : List String
deriving Repr, DecidableEq

/-- `Set.prototype.add`. -/
def JsSet.add (s : JsSet) (x : String) : JsSet :=
  if x ∈ s.elems then s else { elems := s.elems ++ [x] }

/-- `Set.prototype.delete` (used by `socket.leave`). -/
def JsSet.del (s : JsSet) (x : String) : JsSet :=
  { elems := s.elems.filter (fun y => y != x) }

/-- `Object.keys` applied to a JS `Set` instance.  A `Set` stores its
elements in an internal slot, not as own enumerable properties, so
`Object.keys` returns the empty array whatever the set contains.  The code
runs on socket.io v3+/v4 — the `handshake.auth` API it and its client use
for the token only exists there — where `socket.rooms` is such a `Set`
(in socket.io v2 it was a plain object). -/
def objectKeysOfSet (_ : JsSet) : List String := []

/-- A live socket connection: its id and its room set (socket.io keeps the
socket's own id in `socket.rooms`). -/
structure SocketConn where
  sid : String
  rooms : JsSet
deriving Repr, DecidableEq

/-- A freshly connected socket is a member of its own id room only. -/
def newSocket (sid : String) : SocketConn :=
  { sid := sid, rooms := { elems := [sid] } }

/-- `socket.leave(room)`. -/
def SocketConn.leave (s : SocketConn) (room : String) : SocketConn :=
  { s with rooms := s.rooms.del room }

/-- `socket.join(room)`. -/
def SocketConn.join (s : SocketConn) (room : String) : SocketConn :=
  { s with rooms := s.rooms.add room }

/-- `join_task` handler (socket.ts): iterate over
`Object.keys(socket.rooms)`, leave every room that is not the socket's own
id and starts with `task_`, then join `task_<taskId>`. -/
def joinTask (sock : SocketConn) (taskId : Nat) : SocketConn :=
  let sock' := (objectKeysOfSet sock.rooms).foldl
    (fun s room =>
      if room != s.sid && room.startsWith "task_" then s.leave room else s)
    sock
  sock'.join ("task_" ++ toString taskId)

/-- The `messageUpload.array('files', 5)` middleware (upload config +
multer).  Modelled from multer's `.array(field, maxCount)` semantics:
accepted files are streamed to disk one by one, and when a file beyond
`maxCount` arrives the middleware aborts with `LIMIT_UNEXPECTED_FILE` and
removes every file it stored for this request before the error reaches the
error handler — so on rejection the disk is exactly as before the request
and the controller never runs. -/
def multerArrayMiddleware (maxCount : Nat) (files : List UploadedFile)
    (disk : List String) : Except String Unit × List String :=
  if files.length > maxCount then
    (Except.error "LIMIT_UNEXPECTED_FILE", disk)
  else
    (Except.ok (), disk ++ files.map (fun f => f.path))

/-- `POST /` on the message router (messageRoutes.ts):
`messageUpload.array('files', 5)` then `createMessage`.  A middleware error
short-circuits to Express's error response without running the
controller. -/
def postMessageRoute (st : ServerState) (senderId taskId : Nat) (content : String)
    (replyToId : Option Nat) (files : List UploadedFile) :
    HttpResult × ServerState × List Emit :=
  match multerArrayMiddleware 5 files st.disk with
  | (Except.error e, disk') => (HttpResult.err 500 e, { st with disk := disk' }, [])
  | (Except.ok _, disk') =>
    createMessage { st with disk := disk' } senderId taskId content replyToId files

/-- Result of a QA-review request. -/
inductive QAResult where
  | ok (status : Nat) (note : String) (reviewId : Nat)
  | err (status : Nat) (note : String)
deriving Repr, DecidableEq

/-- `requestQAReview` (qaController.ts): a review may be created only when
the message exists and `QAReview.findOne({where: {messageId}})` finds no
existing review for it. -/
def requestQAReview (st : ServerState) (userId messageId : Nat) :
    QAResult × ServerState :=
  match findMessage st messageId with
  | none => (QAResult.err 404 "Message not found", st)
  | some _ =>
    match st.qaReviews.find? (fun r => r.messageId == messageId) with
    | some _ => (QAResult.err 400 "QA review already requested for this message", st)
    | none =>
      let review : QAReview :=
        { id := st.nextReviewId
          messageId := messageId
          reviewerId := userId
          status := "pending"
          feedback := none }
      (QAResult.ok 201 "QA review requested successfully" review.id,
       { st with qaReviews := st.qaReviews ++ [review],
                 nextReviewId := st.nextReviewId + 1 })

/-- Number of `QAReview` rows for a message. -/
def qaCount (st : ServerState) (messageId : Nat) : Nat :=
  (st.qaReviews.filter (fun r => r.messageId == messageId)).length

/-- `removeAttachment` (messageController.ts): only the sender may remove;
an unknown attachment id is a 404 before any deletion or update happens. -/
def removeAttachment (st : ServerState) (userId messageId : Nat)
    (attachmentId : String) : HttpResult × ServerState :=
  match findMessage st messageId with
  | none => (HttpResult.err 404 "Message not found", st)
  | some message =>
    if message.senderId != userId then
      (HttpResult.err 403 "Not authorized to update this message", st)
    else
      match message.attachments.find? (fun a => a.id == attachmentId) with
      | none => (HttpResult.err 404 "Attachment not found", st)
      | some attachmentToRemove =>
        let disk' := deleteAttachmentFiles st.disk [attachmentToRemove]
        let updatedAttachments :=
          message.attachments.filter (fun a => a.id != attachmentId)
        let message' := { message with attachments := updatedAttachments }
        let st' := { st with
          messages := st.messages.map (fun m => if m.id == messageId then message' else m)
          disk := disk' }
        (HttpResult.ok 200 "Attachment removed successfully"
          (findByPkHydrated st' messageId), st')

/-- `updateMessage` (messageController.ts): only the sender may update;
`content || message.content` keeps the old content when the incoming
content is absent or empty (JS falsiness); new uploads are appended to the
existing attachment list. -/
def updateMessage (st : ServerState) (userId messageId : Nat)
    (content : Option String) (files : List UploadedFile) :
    HttpResult × ServerState :=
  match findMessage st messageId with
  | none =>
    let st' := if files.length > 0 then
        { st with disk := deleteAttachmentFiles st.disk (processUploadedFiles files) }
      else st
    (HttpResult.err 404 "Message not found", st')
  | some message =>
    if message.senderId != userId then
      let st' := if files.length > 0 then
          { st with disk := deleteAttachmentFiles st.disk (processUploadedFiles files) }
        else st
      (HttpResult.err 403 "Not authorized to update this message", st')
    else
      let newAttachments := if files.length > 0 then processUploadedFiles files else []
      let updatedAttachments := message.attachments ++ newAttachments
      let message' := { message with
        content := jsOrString content message.content
        attachments := updatedAttachments }
      let st' := { st with
        messages := st.messages.map (fun m => if m.id == messageId then message' else m) }
      (HttpResult.ok 200 "Message updated successfully"
        (findByPkHydrated st' messageId), st')

/-- Regular-expression AST covering exactly the constructs the two patterns
in summaryController.ts use: character predicates, concatenation, the
greedy `?`, greedy `{lo,}` and greedy `{lo,hi}`. -/
inductive Rx where
  | eps : Rx
  | ch : (Char → Bool) → Rx
  | seq : Rx → Rx → Rx
  | opt : Rx → Rx
  | repGE : Rx → Nat → Rx
  | repRange : Rx → Nat → Nat → Rx

/-- Concatenate a list of regexes. -/
def rxSeqList (l : List Rx) : Rx :=
  l.foldr Rx.seq Rx.eps

/-- Backtracking matcher in continuation-passing style, implementing the
greedy, leftmost-first, backtracking semantics of a JavaScript `RegExp`:
`matchRx fuel r s k` feeds the unconsumed suffix of each candidate match of
`r` at the start of `s` to `k`, in the order a JS engine tries them, and
returns the first success.  `fuel` bounds the recursion depth; every
construct consumes a unit, so any fuel beyond the pattern size plus a small
multiple of the input length is inert. -/
def matchRx : Nat → Rx → List Char → (List Char → Option (List Char)) →
    Option (List Char)
  | 0, _, _, _ => none
  | _ + 1, Rx.eps, s, k => k s
  | _ + 1, Rx.ch p, s, k =>
    match s with
    | [] => none
    | c :: rest => if p c then k rest else none
  | fuel + 1, Rx.seq a b, s, k =>
    matchRx fuel a s (fun s2 => matchRx fuel b s2 k)
  | fuel + 1, Rx.opt a, s, k =>
    match matchRx fuel a s k with
    | some r => some r
    | none => k s
  | fuel + 1, Rx.repGE a lo, s, k =>
    match lo with
    | m + 1 => matchRx fuel a s (fun s2 => matchRx fuel (Rx.repGE a m) s2 k)
    | 0 =>
      match matchRx fuel a s (fun s2 => matchRx fuel (Rx.repGE a 0) s2 k) with
      | some r => some r
      | none => k s
  | fuel + 1, Rx.repRange a lo hi, s, k =>
    match lo with
    | m + 1 =>
      matchRx fuel a s (fun s2 => matchRx fuel (Rx.repRange a m (hi - 1)) s2 k)
    | 0 =>
      match hi with
      | 0 => k s
      | h + 1 =>
        match matchRx fuel a s (fun s2 => matchRx fuel (Rx.repRange a 0 h) s2 k) with
        | some r => some r
        | none => k s

/-- Fuel that comfortably dominates the matcher's recursion depth for the
two patterns below on an input of the given length. -/
def rxFuel (s : List Char) : Nat := 16 * s.length + 256

/-- Try the regex at the start of `s`; on success return the length of the
(leftmost-greedy) match. -/
def runRx (r : Rx) (s : List Char) : Option Nat :=
  match matchRx (rxFuel s) r s (fun rest => some rest) with
  | none => none
  | some rest => some (s.length - rest.length)

/-- `String.prototype.match` with a `/g` regex: scan left to right, take
each leftmost match, continue after it (advancing one position after a
zero-width match), and collect all matches. -/
def scanRx : Nat → Rx → List Char → List (List Char)
  | 0, _, _ => []
  | _ + 1, r, [] =>
    match runRx r [] with
    | some _ => [[]]
    | none => []
  | fuel + 1, r, c :: rest =>
    match runRx r (c :: rest) with
    | none => scanRx fuel r rest
    | some 0 => [] :: scanRx fuel r rest
    | some (n + 1) =>
      ((c :: rest).take (n + 1)) :: scanRx fuel r ((c :: rest).drop (n + 1))

/-- All matches of a global regex in a string, as strings. -/
def jsMatchG (r : Rx) (s : String) : List String :=
  (scanRx (s.toList.length + 1) r s.toList).map (fun l => String.mk l)

/-- `\d`. -/
def isDigitChar (c : Char) : Bool := '0' ≤ c && c ≤ '9'

/-- JavaScript `\s`: ASCII whitespace (space, tab, line feed, vertical tab,
form feed, carriage return), no-break space, BOM and the Unicode space
separators.  Only the ASCII members matter to the inputs proved about. -/
def isSpaceJS (c : Char) : Bool :=
  c == ' ' || c == '\t' || c == '\n' || c == '\x0b' || c == '\x0c' ||
  c == '\r' || c.toNat == 0xa0 ||
  (0x2000 ≤ c.toNat && c.toNat ≤ 0x200a) ||
  c.toNat == 0x1680 || c.toNat == 0x2028 || c.toNat == 0x2029 ||
  c.toNat == 0x202f || c.toNat == 0x205f || c.toNat == 0x3000 ||
  c.toNat == 0xfeff

/-- A literal character. -/
def chLit (c : Char) : Rx := Rx.ch (fun d => d == c)

/-- The URL pattern of summaryController.ts: an `https?://` scheme followed
by one or more non-whitespace characters, greedy. -/
def urlPattern : Rx :=
  rxSeqList [chLit 'h', chLit 't', chLit 't', chLit 'p', Rx.opt (chLit 's'),
    chLit ':', chLit '/', chLit '/',
    Rx.repGE (Rx.ch (fun c => !(isSpaceJS c))) 1]

/-- The phone pattern of summaryController.ts: an optional `+` country code
(1-3 digits, optional whitespace), an optional parenthesised group (1-4
digits, optional whitespace), then at least two greedy groups of 1-4 digits
each followed by an optional `-` or whitespace separator. -/
def phonePattern : Rx :=
  rxSeqList
    [Rx.opt (rxSeqList [chLit '+', Rx.repRange (Rx.ch isDigitChar) 1 3,
       Rx.opt (Rx.ch isSpaceJS)]),
     Rx.opt (rxSeqList [chLit '(', Rx.repRange (Rx.ch isDigitChar) 1 4,
       chLit ')', Rx.opt (Rx.ch isSpaceJS)]),
     Rx.repGE (rxSeqList [Rx.repRange (Rx.ch isDigitChar) 1 4,
       Rx.opt (Rx.ch (fun c => c == '-' || isSpaceJS c))]) 2]

/-- The deduplication step `[...new Set(entities)]`: keep the first
occurrence of each entry, preserving insertion order. -/
def dedupFirst (l : List String) : List String :=
  l.foldl (fun acc s => if s ∈ acc then acc else acc ++ [s]) []

/-- `extractEntitiesRegex` (summaryController.ts; the module-level
`extractEntities` helper is the identical code): for each message, push all
URL matches then all phone matches of its content, then deduplicate. -/
def extractEntitiesRegex (messages : List Message) : List String :=
  dedupFirst (messages.foldl
    (fun acc m => acc ++ jsMatchG urlPattern m.content ++ jsMatchG phonePattern m.content)
    [])

/-- The parsed JSON body of a successful OpenAI chat completion as
`generateTaskSummary` reads it (either field may be missing). -/
structure AiJson where
  summary : Option String
  entities : Option (List String)
deriving Repr, DecidableEq

/-- The `{content, entities}` value `generateTaskSummary` resolves with. -/
structure AiSummary where
  content : String
  entities : List String
deriving Repr, DecidableEq

/-- `generateTaskSummary` (openaiService.ts).  The OpenAI chat-completion
call is the external collaborator; its outcome is the `api` argument:
`Except.ok r` is the parsed response JSON, `Except.error e` is the call
throwing with message `e` — in which case the function resolves with an
explicit error content and an empty entity list. -/
def generateTaskSummary (messages : List Message) (_taskStatus : String)
    (api : Except String AiJson) : AiSummary :=
  if messages.length == 0 then
    { content := "No messages to summarize.", entities := [] }
  else
    match api with
    | Except.ok r =>
      { content := jsOrString r.summary "Summary generation failed."
        entities := r.entities.getD [] }
    | Except.error e =>
      { content := "Error generating summary: " ++ e, entities := [] }

/-- `Message.findAll({where: {taskId}, order: createdAt ASC})`: `createdAt`
is monotone in insertion order here, so this is the filtered list. -/
def messagesForTask (st : ServerState) (taskId : Nat) : List Message :=
  st.messages.filter (fun m => m.taskId == taskId)

/-- Result of a summary operation. -/
inductive SummaryOpResult where
  | ok (status : Nat) (note : String) (summaryId : Nat)
  | err (status : Nat) (note : String)
deriving Repr, DecidableEq

/-- `generateSummary` (summaryController.ts): fetch the task's messages,
call `generateTaskSummary`, then create-or-update the task's single
`Summary` row with the returned content and entities. -/
def generateSummary (st : ServerState) (userId taskId : Nat)
    (api : Except String AiJson) : SummaryOpResult × ServerState :=
  match findTask st taskId with
  | none => (SummaryOpResult.err 404 "Task not found", st)
  | some task =>
    let messages := messagesForTask st taskId
    if messages.length == 0 then
      (SummaryOpResult.err 400 "No messages found to generate summary", st)
    else
      let aiSummary := generateTaskSummary messages task.status api
      match st.summaries.find? (fun s => s.taskId == taskId) with
      | some existing =>
        let s' := { existing with
          content := aiSummary.content
          createdById := userId
          entities := aiSummary.entities }
        (SummaryOpResult.ok 200 "Summary generated successfully" existing.id,
         { st with summaries :=
            st.summaries.map (fun s => if s.id == existing.id then s' else s) })
      | none =>
        let s : Summary :=
          { id := st.nextSummaryId
            taskId := taskId
            createdById := userId
            content := aiSummary.content
            entities := aiSummary.entities }
        (SummaryOpResult.ok 200 "Summary generated successfully" s.id,
         { st with summaries := st.summaries ++ [s],
                   nextSummaryId := st.nextSummaryId + 1 })

/-- A task requester/operator used by the concrete scenarios. -/
def user1 : DbUser :=
  { id := 1, name := "U", email := "u@example.com", role := "operator" }

/-- The task the concrete scenarios post into. -/
def task1 : Task := { id := 1, status := "Logged" }

/-- Baseline server state for the concrete scenarios: one user, one task,
nothing else. -/
def baseState : ServerState :=
  { users := [user1]
    tasks := [task1]
    messages := []
    nextMessageId := 1
    qaReviews := []
    nextReviewId := 1
    summaries := []
    nextSummaryId := 1
    disk := [] }

/-- A second task, for cross-task reply scenarios. -/
def task2 : Task := { id := 2, status := "Logged" }

/-- A message sitting in task 2, used as an out-of-task reply target. -/
def messageInTask2 : Message :=
  { id := 7, taskId := 2, senderId := 1, content := "other-task message"
    replyToId := none, attachments := [], createdAt := 7 }

/-- State with two tasks and one message in task 2: replying to that
message from task 1 must fail. -/
def crossReplyState : ServerState :=
  { baseState with
    tasks := [task1, task2]
    messages := [messageInTask2]
    nextMessageId := 8 }

/-- An uploaded file used by the upload scenarios. -/
def fileA : UploadedFile :=
  { filename := "1700000000000-aaaa.png", originalName := "a.png"
    path := "uploads/messages/1700000000000-aaaa.png"
    mimetype := "image/png", size := 100 }

/-- A batch of six uploaded files (over the five-file bound). -/
def sixFiles : List UploadedFile :=
  (List.range 6).map (fun i =>
    { filename := "f" ++ toString i
      originalName := "f" ++ toString i
      path := "uploads/messages/f" ++ toString i
      mimetype := "image/png", size := 10 })

/-- The message of the entity-extraction scenario. -/
def c8Message : Message :=
  { id := 1, taskId := 1, senderId := 1
    content := "call me at 415-555-0100 or see https://x.co"
    replyToId := none, attachments := [], createdAt := 1 }

/-- State for the summary-generation scenario: task 1 holds one message
whose content contains a URL. -/
def c6State : ServerState :=
  { baseState with
    messages := [{ id := 1, taskId := 1, senderId := 1
                   content := "see https://x.co", replyToId := none
                   attachments := [], createdAt := 1 }]
    nextMessageId := 2 }

/-- An existing attachment carried by the message of the
remove-attachment scenario. -/
def attX : Attachment :=
  { id := "att-x", filename := "x.png", originalName := "x.png"
    path := "uploads/messages/x.png", url := getFileUrl "x.png"
    mimetype := "image/png", size := 5, createdAt := 0 }

/-- A message with one attachment, sent by user 1 into task 1. -/
def messageWithAttachment : Message :=
  { id := 3, taskId := 1, senderId := 1, content := "with file"
    replyToId := none, attachments := [attX], createdAt := 3 }

/-- State for the remove-attachment and update-message scenarios. -/
def attachState : ServerState :=
  { baseState with
    messages := [messageWithAttachment]
    nextMessageId := 4
    disk := [attX.path] }

/-- Deduplication always yields a duplicate-free list: folding step
invariant. -/
theorem dedupFirst_aux_nodup (l : List String) :
    ∀ acc : List String, acc.Nodup →
      (l.foldl (fun acc s => if s ∈ acc then acc else acc ++ [s]) acc).Nodup := by
  induction l with
  | nil => intro acc h; simpa using h
  | cons x t ih =>
    intro acc h
    by_cases hx : x ∈ acc
    · simpa [hx] using ih acc h
    · have h' : (acc ++ [x]).Nodup := by
        simp [List.nodup_append, h, hx]
      simpa [hx] using ih (acc ++ [x]) h'

/-- `dedupFirst` never returns duplicates. -/
theorem dedupFirst_nodup (l : List String) : (dedupFirst l).Nodup :=
  dedupFirst_aux_nodup l [] List.nodup_nil

/-- Every uploaded file's path is gone after `deleteAttachmentFiles` runs on
the attachments produced from those files. -/
theorem path_not_mem_deleteAttachmentFiles (disk : List String)
    (files : List UploadedFile) (f : UploadedFile) (hf : f ∈ files) :
    f.path ∉ deleteAttachmentFiles disk (processUploadedFiles files) := by
  intro hmem
  unfold deleteAttachmentFiles at hmem
  have h := List.of_mem_filter hmem
  have : (processUploadedFiles files).any (fun a => a.path == f.path) = true := by
    refine List.any_eq_true.mpr ?_
    refine ⟨{ id := "uuid-" ++ f.filename, filename := f.filename
              originalName := f.originalName, path := f.path
              url := getFileUrl f.filename, mimetype := f.mimetype
              size := f.size, createdAt := 0 }, ?_, ?_⟩
    · unfold processUploadedFiles
      exact List.mem_map.mpr ⟨f, hf, rfl⟩
    · simp
  simp [this] at h

/-- Replacing (by `map`) every row whose id matches by a fixed row `c` with
that id makes `find?` on that id return `c`, provided the id was present. -/
theorem find?_map_replace (l : List Message) (mid : Nat) (c m : Message)
    (hfind : l.find? (fun x => x.id == mid) = some m) (hc : c.id = mid) :
    (l.map (fun x => if x.id == mid then c else x)).find?
      (fun x => x.id == mid) = some c := by
  induction l with
  | nil => simp at hfind
  | cons a t ih =>
    by_cases ha : a.id == mid
    · simp [List.find?, ha, hc]
    · have ha' : (a.id == mid) = false := by
        simpa using ha
      have hfind' : t.find? (fun x => x.id == mid) = some m := by
        simpa [List.find?, ha'] using hfind
      simpa [List.find?, ha'] using ih hfind'

/-- C1: for the valid pair (task 1, "hello") and authenticated sender 1,
the HTTP multipart intake path and the socket `send_message` intake path
persist identical message rows, and the socket path broadcasts one
`new_message` event to the task room — but the HTTP path emits no event at
all, so the claim's "the HTTP path broadcasts just as the socket path does"
fails on the code: the HTTP controller has no broadcast site. -/
theorem c1_dual_path_rows_equal_but_http_never_broadcasts :
    (createMessage baseState 1 1 "hello" none []).2.1.messages =
      (sendMessage baseState 1 1 "hello" none none).1.messages
    ∧ (createMessage baseState 1 1 "hello" none []).1 =
        HttpResult.ok 201 "Message sent successfully"
          (findByPkHydrated (createMessage baseState 1 1 "hello" none []).2.1 1)
    ∧ (createMessage baseState 1 1 "hello" none []).2.2 = []
    ∧ (sendMessage baseState 1 1 "hello" none none).2 =
        [Emit.toRoom "task_1" "new_message"
          (findByPkHydrated (sendMessage baseState 1 1 "hello" none none).1 1)] := by
  decide

/-- C2: a connection that joins task 1 and then task 2 is left as a member
of BOTH `task_1` and `task_2`: the `join_task` handler's leave-loop
iterates over `Object.keys(socket.rooms)`, which is empty because
`socket.rooms` is a JS `Set` under socket.io v3+, so the claimed
"exactly one task room" invariant fails on the code. -/
theorem c2_join_task_leaves_connection_in_both_rooms :
    "task_1" ∈ (joinTask (joinTask (newSocket "s1") 1) 2).rooms.elems
    ∧ "task_2" ∈ (joinTask (joinTask (newSocket "s1") 1) 2).rooms.elems := by
  decide

/-- C6: when the text-generation collaborator call fails (here with message
"boom") during `generateSummary` for a task whose messages contain a URL,
the stored summary text is the explicit failure string, but the stored
entities list is empty — the regex-based extractor, which would have
produced the URL, is not used on this path. -/
theorem c6_collaborator_failure_stores_empty_entities_not_regex :
    (generateSummary c6State 1 1 (Except.error "boom")).2.summaries =
      [{ id := 1, taskId := 1, createdById := 1
         content := "Error generating summary: boom", entities := [] }]
    ∧ extractEntitiesRegex (messagesForTask c6State 1) = ["https://x.co"] := by
  decide

/-- C8 counterexample: on the message "call me at 415-555-0100 or see
https://x.co", the extracted entities list does not contain the phone-like
token `415-555-0100` as an entry — the greedy `[-\s]?` separator of the
phone pattern also captures the space after the number, so the stored entry
is `"415-555-0100 "` (with a trailing space). -/
theorem c8_counterexample_phone_token_not_member :
    "415-555-0100" ∉ extractEntitiesRegex [c8Message] := by
  decide

/-- C8 (amended): on that message the entities list is exactly the URL
`https://x.co` followed by the phone-like token with its trailing separator
`"415-555-0100 "`, and for every input the returned list contains no
duplicate entries. -/
theorem c8_entities_url_phone_token_and_dedup :
    extractEntitiesRegex [c8Message] = ["https://x.co", "415-555-0100 "]
    ∧ ∀ messages : List Message, (extractEntitiesRegex messages).Nodup := by
  refine ⟨by decide, fun messages => dedupFirst_nodup _⟩

/-- C5: a create-message request carrying six or more files is rejected by
the `messageUpload.array('files', 5)` middleware, and at the moment of
rejection the attachment store holds exactly what it held before the
request — no submitted file is persisted and the controller never runs. -/
theorem c5_six_files_rejected_before_any_persist
    (st : ServerState) (senderId taskId : Nat) (content : String)
    (replyToId : Option Nat) (files : List UploadedFile)
    (h : 6 ≤ files.length) :
    (postMessageRoute st senderId taskId content replyToId files).1 =
      HttpResult.err 500 "LIMIT_UNEXPECTED_FILE"
    ∧ (postMessageRoute st senderId taskId content replyToId files).2.1 = st
    ∧ (postMessageRoute st senderId taskId content replyToId files).2.2 = [] := by
  have h5 : files.length > 5 := h
  unfold postMessageRoute multerArrayMiddleware
  rw [if_pos h5]
  exact ⟨rfl, rfl, rfl⟩

/-- C5 witness: six concrete files into the baseline state. -/
theorem c5_witness :
    (postMessageRoute baseState 1 1 "hi" none sixFiles).1 =
      HttpResult.err 500 "LIMIT_UNEXPECTED_FILE"
    ∧ (postMessageRoute baseState 1 1 "hi" none sixFiles).2.1 = baseState
    ∧ (postMessageRoute baseState 1 1 "hi" none sixFiles).2.2 = [] :=
  c5_six_files_rejected_before_any_persist baseState 1 1 "hi" none sixFiles
    (by decide)

/-- C9: removing an attachment id that does not occur on the message (by
its sender) returns the `Attachment not found` error and returns the state
completely unchanged: content, attachment list and the stored files are
untouched. -/
theorem c9_remove_unknown_attachment_leaves_state_unchanged
    (st : ServerState) (userId messageId : Nat) (attachmentId : String)
    (m : Message)
    (hm : findMessage st messageId = some m)
    (hs : m.senderId = userId)
    (hf : ∀ a ∈ m.attachments, a.id ≠ attachmentId) :
    removeAttachment st userId messageId attachmentId =
      (HttpResult.err 404 "Attachment not found", st) := by
  have hsend : (m.senderId != userId) = false := by simp [hs]
  have hfind : m.attachments.find? (fun a => a.id == attachmentId) = none :=
    List.find?_eq_none.mpr (fun a ha => by simpa using hf a ha)
  unfold removeAttachment
  rw [hm]
  simp [hsend, hfind]

/-- C9 witness: message 3 (sender 1, one attachment "att-x") and the absent
attachment id "nope". -/
theorem c9_witness :
    removeAttachment attachState 1 3 "nope" =
      (HttpResult.err 404 "Attachment not found", attachState) :=
  c9_remove_unknown_attachment_leaves_state_unchanged attachState 1 3 "nope"
    messageWithAttachment (by decide) (by decide) (by decide)

/-- The sender branch of `updateMessage`, for any incoming content: the
stored row keeps its id, its content becomes `content || old content`, and
the new uploads are appended after the existing attachments. -/
theorem updateMessage_sender_spec
    (st : ServerState) (userId messageId : Nat) (content : Option String)
    (files : List UploadedFile) (m : Message)
    (hm : findMessage st messageId = some m)
    (hs : m.senderId = userId) :
    findMessage (updateMessage st userId messageId content files).2 messageId =
      some { m with content := jsOrString content m.content
                    attachments := m.attachments ++ processUploadedFiles files } := by
  have hsend : (m.senderId != userId) = false := by simp [hs]
  have hnew : (if files.length > 0 then processUploadedFiles files else []) =
      processUploadedFiles files := by
    cases files <;> simp [processUploadedFiles]
  have hid : m.id = messageId := by
    have := List.find?_some hm
    simpa using this
  unfold updateMessage
  rw [hm]
  simp only [hsend, Bool.false_eq_true, if_false, hnew]
  unfold findMessage
  exact find?_map_replace st.messages messageId _ m hm (by simpa using hid)

/-- C10: an update by the sender with content absent or empty leaves the
stored content unchanged and appends the new uploads to the end of the
existing attachment list; and for every incoming content value the existing
attachments survive in place, in order, as a prefix (never removed,
replaced or reordered). -/
theorem c10_update_keeps_content_appends_attachments
    (st : ServerState) (userId messageId : Nat) (content : Option String)
    (files : List UploadedFile) (m : Message)
    (hm : findMessage st messageId = some m)
    (hs : m.senderId = userId)
    (hc : content = none ∨ content = some "") :
    (findMessage (updateMessage st userId messageId content files).2 messageId =
      some { m with attachments := m.attachments ++ processUploadedFiles files })
    ∧ ∀ c : Option String,
        findMessage (updateMessage st userId messageId c files).2 messageId =
          some { m with content := jsOrString c m.content
                        attachments := m.attachments ++ processUploadedFiles files } := by
  have hkeep : jsOrString content m.content = m.content := by
    rcases hc with h | h <;> subst h <;> simp [jsOrString]
  refine ⟨?_, fun c => updateMessage_sender_spec st userId messageId c files m hm hs⟩
  have := updateMessage_sender_spec st userId messageId content files m hm hs
  rwa [hkeep] at this

/-- C10 witness: message 3 updated by its sender with absent content and
one new file. -/
theorem c10_witness :
    (findMessage (updateMessage attachState 1 3 none [fileA]).2 3 =
      some { messageWithAttachment with
        attachments := messageWithAttachment.attachments ++ processUploadedFiles [fileA] })
    ∧ ∀ c : Option String,
        findMessage (updateMessage attachState 1 3 c [fileA]).2 3 =
          some { messageWithAttachment with
            content := jsOrString c messageWithAttachment.content
            attachments := messageWithAttachment.attachments ++ processUploadedFiles [fileA] } :=
  c10_update_keeps_content_appends_attachments attachState 1 3 none [fileA]
    messageWithAttachment (by decide) (by decide) (Or.inl rfl)

/-- No uploaded file survives the cleanup state of an erroring
`createMessage`/`updateMessage` branch. -/
theorem cleanupState_not_mem (st : ServerState) (files : List UploadedFile) :
    ∀ f ∈ files, f.path ∉
      (if files.length > 0 then
        { st with disk := deleteAttachmentFiles st.disk (processUploadedFiles files) }
      else st).disk := by
  intro f hf
  by_cases hl : files.length > 0
  · rw [if_pos hl]
    exact path_not_mem_deleteAttachmentFiles st.disk files f hf
  · exfalso
    have h0 : files = [] := List.length_eq_zero.mp (Nat.eq_zero_of_not_pos hl)
    subst h0
    simp at hf

/-- The cleanup state keeps the message table unchanged. -/
theorem cleanupState_messages (st : ServerState) (files : List UploadedFile) :
    (if files.length > 0 then
      { st with disk := deleteAttachmentFiles st.disk (processUploadedFiles files) }
    else st).messages = st.messages := by
  split <;> rfl

/-- C3: on both intake paths, a reply target that exists but belongs to a
different task is rejected with the `Reply message does not belong to the
same task` error and no message row is persisted: the HTTP path returns the
400 with the message table unchanged and emits nothing, the socket path
emits only the `error` event to the sender and leaves the state fully
unchanged.  (`rid ≠ 0` reflects that message ids are positive, so the JS
truthiness guard `if (replyToId)` passes.) -/
theorem c3_reply_mismatch_rejected_on_both_paths
    (st : ServerState) (senderId taskId : Nat) (content : String) (rid : Nat)
    (files : List UploadedFile) (atts : Option (List Attachment))
    (t : Task) (rm : Message)
    (htask : findTask st taskId = some t)
    (hrm : findMessage st rid = some rm)
    (hne : rm.taskId ≠ taskId)
    (hrid : rid ≠ 0) :
    ((createMessage st senderId taskId content (some rid) files).1 =
        HttpResult.err 400 "Reply message does not belong to the same task"
      ∧ (createMessage st senderId taskId content (some rid) files).2.1.messages =
          st.messages
      ∧ (createMessage st senderId taskId content (some rid) files).2.2 = [])
    ∧ (sendMessage st senderId taskId content (some rid) atts).1 = st
    ∧ (sendMessage st senderId taskId content (some rid) atts).2 =
        [Emit.toSender "error" "Reply message does not belong to the same task"] := by
  have htr : optIdTruthy (some rid) = true := by simp [optIdTruthy, hrid]
  have hb : (rm.taskId != taskId) = true := by simp [hne]
  have hc : createMessage st senderId taskId content (some rid) files =
      (HttpResult.err 400 "Reply message does not belong to the same task",
       (if files.length > 0 then
          { st with disk := deleteAttachmentFiles st.disk (processUploadedFiles files) }
        else st), []) := by
    simp only [createMessage, htask, htr, Option.getD_some, hrm, hb, if_true]
  have hsm : sendMessage st senderId taskId content (some rid) atts =
      (st, [Emit.toSender "error" "Reply message does not belong to the same task"]) := by
    simp only [sendMessage, htask, htr, Option.getD_some, hrm, hb, if_true]
  refine ⟨⟨?_, ?_, ?_⟩, ?_, ?_⟩
  · rw [hc]
  · rw [hc]
    exact cleanupState_messages st files
  · rw [hc]
  · rw [hsm]
  · rw [hsm]

/-- C3 witness: replying from task 1 to message 7, which lives in task 2. -/
theorem c3_witness :
    ((createMessage crossReplyState 1 1 "hi" (some 7) []).1 =
        HttpResult.err 400 "Reply message does not belong to the same task"
      ∧ (createMessage crossReplyState 1 1 "hi" (some 7) []).2.1.messages =
          crossReplyState.messages
      ∧ (createMessage crossReplyState 1 1 "hi" (some 7) []).2.2 = [])
    ∧ (sendMessage crossReplyState 1 1 "hi" (some 7) none).1 = crossReplyState
    ∧ (sendMessage crossReplyState 1 1 "hi" (some 7) none).2 =
        [Emit.toSender "error" "Reply message does not belong to the same task"] :=
  c3_reply_mismatch_rejected_on_both_paths crossReplyState 1 1 "hi" 7 [] none
    task1 messageInTask2 (by decide) (by decide) (by decide) (by decide)

/-- C4: whenever the HTTP `createMessage` controller answers with an error
(the step-(a) task-existence failure or a step-(b) reply-validation
failure are the only error answers), every uploaded file has been deleted
from the attachment store before the response, and no message row has been
persisted. -/
theorem c4_error_cleanup_removes_uploaded_files
    (st : ServerState) (senderId taskId : Nat) (content : String)
    (replyToId : Option Nat) (files : List UploadedFile)
    (code : Nat) (msg : String)
    (herr : (createMessage st senderId taskId content replyToId files).1 =
      HttpResult.err code msg) :
    (∀ f ∈ files, f.path ∉
        (createMessage st senderId taskId content replyToId files).2.1.disk)
    ∧ (createMessage st senderId taskId content replyToId files).2.1.messages =
        st.messages
    ∧ (createMessage st senderId taskId content replyToId files).2.2 = [] := by
  rcases hT : findTask st taskId with _ | t
  · have hc : createMessage st senderId taskId content replyToId files =
        (HttpResult.err 404 "Task not found",
         (if files.length > 0 then
            { st with disk := deleteAttachmentFiles st.disk (processUploadedFiles files) }
          else st), []) := by
      simp only [createMessage, hT]
    rw [hc]
    exact ⟨cleanupState_not_mem st files, cleanupState_messages st files, rfl⟩
  · by_cases htr : optIdTruthy replyToId = true
    · rcases hM : findMessage st (replyToId.getD 0) with _ | rm
      · have hc : createMessage st senderId taskId content replyToId files =
            (HttpResult.err 404 "Reply message not found",
             (if files.length > 0 then
                { st with disk := deleteAttachmentFiles st.disk (processUploadedFiles files) }
              else st), []) := by
          simp only [createMessage, hT, htr, hM, if_true]
        rw [hc]
        exact ⟨cleanupState_not_mem st files, cleanupState_messages st files, rfl⟩
      · by_cases hmm : (rm.taskId != taskId) = true
        · have hc : createMessage st senderId taskId content replyToId files =
              (HttpResult.err 400 "Reply message does not belong to the same task",
               (if files.length > 0 then
                  { st with disk := deleteAttachmentFiles st.disk (processUploadedFiles files) }
                else st), []) := by
            simp only [createMessage, hT, htr, hM, hmm, if_true]
          rw [hc]
          exact ⟨cleanupState_not_mem st files, cleanupState_messages st files, rfl⟩
        · exfalso
          simp [createMessage, createMessageCore, hT, htr, hM, hmm] at herr
    · exfalso
      simp [createMessage, createMessageCore, hT, htr] at herr

/-- C4 witness: a create into the absent task 99 with one uploaded file —
the file's path is gone from the store and nothing was persisted. -/
theorem c4_witness :
    (∀ f ∈ [fileA], f.path ∉
        (createMessage baseState 1 99 "hi" none [fileA]).2.1.disk)
    ∧ (createMessage baseState 1 99 "hi" none [fileA]).2.1.messages =
        baseState.messages
    ∧ (createMessage baseState 1 99 "hi" none [fileA]).2.2 = [] :=
  c4_error_cleanup_removes_uploaded_files baseState 1 99 "hi" none [fileA]
    404 "Task not found" (by decide)

/-- C7: starting from a state with no review for an existing message, the
first `requestQAReview` creates exactly one review, and it is `pending`;
a second request for the same message is rejected with the
`QA review already requested for this message` validation error, the state
is returned unchanged, and the review count for the message stays 1. -/
theorem c7_qa_review_unique_per_message
    (st : ServerState) (u1 u2 messageId : Nat) (m : Message)
    (hm : findMessage st messageId = some m)
    (hnone : st.qaReviews.find? (fun r => r.messageId == messageId) = none) :
    ((requestQAReview st u1 messageId).1 =
        QAResult.ok 201 "QA review requested successfully" st.nextReviewId)
    ∧ ((requestQAReview st u1 messageId).2.qaReviews.filter
        (fun r => r.messageId == messageId) =
        [{ id := st.nextReviewId, messageId := messageId, reviewerId := u1,
           status := "pending", feedback := none }])
    ∧ qaCount (requestQAReview st u1 messageId).2 messageId = 1
    ∧ ((requestQAReview (requestQAReview st u1 messageId).2 u2 messageId).1 =
        QAResult.err 400 "QA review already requested for this message")
    ∧ (requestQAReview (requestQAReview st u1 messageId).2 u2 messageId).2 =
        (requestQAReview st u1 messageId).2 := by
  have h1 : requestQAReview st u1 messageId =
      (QAResult.ok 201 "QA review requested successfully" st.nextReviewId,
       { st with
          qaReviews := st.qaReviews ++
            [{ id := st.nextReviewId, messageId := messageId, reviewerId := u1,
               status := "pending", feedback := none }]
          nextReviewId := st.nextReviewId + 1 }) := by
    simp only [requestQAReview, hm, hnone]
  have hfilter0 : st.qaReviews.filter (fun r => r.messageId == messageId) = [] :=
    List.filter_eq_nil_iff.mpr (List.find?_eq_none.mp hnone)
  have hfilter1 :
      (st.qaReviews ++
        [({ id := st.nextReviewId, messageId := messageId, reviewerId := u1,
            status := "pending", feedback := none } : QAReview)]).filter
        (fun r => r.messageId == messageId) =
        [{ id := st.nextReviewId, messageId := messageId, reviewerId := u1,
           status := "pending", feedback := none }] := by
    rw [List.filter_append, hfilter0]
    simp
  have hfind1 :
      (st.qaReviews ++
        [({ id := st.nextReviewId, messageId := messageId, reviewerId := u1,
            status := "pending", feedback := none } : QAReview)]).find?
        (fun r => r.messageId == messageId) =
        some { id := st.nextReviewId, messageId := messageId, reviewerId := u1,
               status := "pending", feedback := none } := by
    rw [List.find?_append, hnone]
    simp
  rw [h1]
  refine ⟨rfl, ?_, ?_, ?_, ?_⟩
  · exact hfilter1
  · unfold qaCount
    rw [hfilter1]
    rfl
  · simp only [requestQAReview]
    rw [show findMessage
        { st with
          qaReviews := st.qaReviews ++
            [{ id := st.nextReviewId, messageId := messageId, reviewerId := u1,
               status := "pending", feedback := none }]
          nextReviewId := st.nextReviewId + 1 } messageId = some m from hm]
    rw [hfind1]
  · simp only [requestQAReview]
    rw [show findMessage
        { st with
          qaReviews := st.qaReviews ++
            [{ id := st.nextReviewId, messageId := messageId, reviewerId := u1,
               status := "pending", feedback := none }]
          nextReviewId := st.nextReviewId + 1 } messageId = some m from hm]
    rw [hfind1]

/-- C7 witness: message 3 with an empty review table; two requests by users
1 and 2. -/
theorem c7_witness :
    ((requestQAReview attachState 1 3).1 =
        QAResult.ok 201 "QA review requested successfully" attachState.nextReviewId)
    ∧ ((requestQAReview attachState 1 3).2.qaReviews.filter
        (fun r => r.messageId == 3) =
        [{ id := attachState.nextReviewId, messageId := 3, reviewerId := 1,
           status := "pending", feedback := none }])
    ∧ qaCount (requestQAReview attachState 1 3).2 3 = 1
    ∧ ((requestQAReview (requestQAReview attachState 1 3).2 2 3).1 =
        QAResult.err 400 "QA review already requested for this message")
    ∧ (requestQAReview (requestQAReview attachState 1 3).2 2 3).2 =
        (requestQAReview attachState 1 3).2 :=
  c7_qa_review_unique_per_message attachState 1 2 3 messageWithAttachment
    (by decide) (by decide)

end Faff
